import Mathlib

/-!
Shallow embedding of the authentication/session subsystem of the
`portal-data-backend` Go repository (package `internal/auth` together with
`infrastructure/security` and `pkg/errors`), and proofs about the claims
of its specification.

Conventions of the embedding:
* Go `error` values become the inductive `GoErr`; `fmt.Errorf("%s: %w", m, e)`
  and `errors.Wrap(e, m)` become `GoErr.wrapped m e`; `errors.Is` becomes
  `GoErr.is`, which unwraps the chain exactly as the Go standard library does.
* Time instants and durations are integers (seconds, as in JWT numeric dates);
  `time.Now().After(t)` is strict `now > t`, `d.Seconds()` is the identity.
  A single clock reading `now` stands for the (sub-second separated) calls
  to `time.Now()` inside one operation.
* The database behind the `sqlx` calls is an explicit record `DB` holding the
  `users` and `tokens` tables as lists of rows; each repository method is a
  function of that state, translated from its SQL text.
* `github.com/golang-jwt/jwt/v5` tokens are modelled structurally: a signed
  token is its header algorithm, its claims, and an idealized MAC value
  recording which algorithm/key/claims it authenticates (a collision-free
  model of HMAC); serialization is injective so token strings are compared
  as these structures, with `TokenString.raw` standing for any byte
  string that does not parse as a token.
* `golang.org/x/crypto/bcrypt` is modelled as a collision-free tagged hash:
  `CompareHashAndPassword` succeeds exactly on hashes produced from the
  same password, and `GenerateFromPassword` fails with `ErrPasswordTooLong`
  on passwords over 72 bytes (x/crypto v0.3.0 and later).
-/

namespace PortalAuth

/-- Go error values of `pkg/errors` and the raw errors that reach the auth
code, as an unwrap chain (`fmt.Errorf("...: %w", e)` / `errors.Wrap`). -/
inductive GoErr where
  /-- Model of `errors.ErrNotFound` -/
  | notFound
  /-- Model of `errors.ErrInvalidCredentials` -/
  | invalidCredentials
  /-- Model of `errors.ErrInvalidToken` -/
  | invalidToken
  /-- Model of `errors.ErrTokenExpired` -/
  | tokenExpired
  /-- Model of `errors.ErrTokenRevoked` -/
  | tokenRevoked
  /-- Model of `errors.ErrUserDisabled` -/
  | userDisabled
  /-- Model of `security.ErrPasswordTooShort` -/
  | passwordTooShort
  /-- Model of `bcrypt.ErrPasswordTooLong`, returned by
  `bcrypt.GenerateFromPassword` (golang.org/x/crypto since v0.3.0) for a
  password longer than 72 bytes -/
  | passwordTooLong
  /-- Model of `database/sql.ErrNoRows`, produced by `sqlx.Get` when a query has no row -/
  | sqlNoRows
  /-- a unique-constraint violation reported by the Postgres driver on INSERT -/
  | dupKey
  /-- any other leaf error built with `errors.New`/`fmt.Errorf` -/
  | msg (s : String)
  /-- Model of `fmt.Errorf("%s: %w", m, e)` / `errors.Wrap(e, m)` -/
  | wrapped (m : String) (inner : GoErr)
deriving DecidableEq

/-- Model of `errors.Is err target`: walk the unwrap chain looking for `target`.
All targets used in this codebase are sentinel (leaf) values. -/
def GoErr.is : GoErr → GoErr → Bool
  | .wrapped m inner, target => (GoErr.wrapped m inner == target) || inner.is target
  | e, target => e == target

/-- JWT header algorithms relevant to `JWTManager` (jwt/v5 method set). -/
inductive JwtAlg where
  | HS256 | HS384 | HS512
  /-- RSA family, e.g. RS256 -/
  | RS256
  /-- ECDSA family, e.g. ES256 -/
  | ES256
  /-- the unsecured "none" algorithm -/
  | noAlg
deriving DecidableEq

/-- The keyfunc type test `token.Method.(*jwt.SigningMethodHMAC)`:
true exactly for the HMAC family. -/
def JwtAlg.isHMAC : JwtAlg → Bool
  | .HS256 | .HS384 | .HS512 => true
  | _ => false

/-- Model of `security.Claims`: the custom fields plus `jwt.RegisteredClaims`. -/
structure JwtClaims where
  userID : String
  organizationID : String
  roleID : String
  email : String
  issuer : String
  subject : String
  expiresAt : Int
  issuedAt : Int
  notBefore : Int
deriving DecidableEq

/-- An idealized MAC: the value records which algorithm and key produced it
over which claims. Forging a `mac` value without the key is impossible in
this model (collision-free HMAC); `garbage` is any byte string that is not
a MAC at all. -/
inductive JwtSignature where
  | mac (alg : JwtAlg) (key : String) (payload : JwtClaims)
  | garbage (bytes : String)
deriving DecidableEq

/-- A decoded three-segment JWT: header algorithm, payload, signature. -/
structure JwtToken where
  alg : JwtAlg
  claims : JwtClaims
  sig : JwtSignature
deriving DecidableEq

/-- A Go token string: either the (injective) serialization of a JWT or an
arbitrary string that fails to decode. -/
inductive TokenString where
  | jwt (t : JwtToken)
  | raw (s : String)
deriving DecidableEq

/-- Model of `security.JWTManager` (durations in seconds). -/
structure JWTManager where
  secret : String
  accessTokenExpiry : Int
  refreshTokenExpiry : Int
  issuer : String
deriving DecidableEq

/-- Model of `security.TokenPair`. -/
structure TokenPair where
  accessToken : TokenString
  refreshToken : TokenString
  expiresIn : Int
  tokenType : String
deriving DecidableEq

/-- Model of `JWTManager.generateAccessToken`: claims stamped with `now` and the
access expiry, signed HS256 with the secret of the manager. -/
def JWTManager.generateAccessToken (j : JWTManager)
    (userID organizationID roleID email : String) (now : Int) : JwtToken :=
  let claims : JwtClaims :=
    { userID := userID, organizationID := organizationID, roleID := roleID,
      email := email, issuer := j.issuer, subject := userID,
      expiresAt := now + j.accessTokenExpiry, issuedAt := now, notBefore := now }
  { alg := .HS256, claims := claims, sig := .mac .HS256 j.secret claims }

/-- Model of `JWTManager.generateRefreshToken`: identical but with the refresh expiry. -/
def JWTManager.generateRefreshToken (j : JWTManager)
    (userID organizationID roleID email : String) (now : Int) : JwtToken :=
  let claims : JwtClaims :=
    { userID := userID, organizationID := organizationID, roleID := roleID,
      email := email, issuer := j.issuer, subject := userID,
      expiresAt := now + j.refreshTokenExpiry, issuedAt := now, notBefore := now }
  { alg := .HS256, claims := claims, sig := .mac .HS256 j.secret claims }

/-- Model of `JWTManager.GenerateTokenPair`. `SignedString` cannot fail for an HMAC
method with a `[]byte` key, so only the empty-user guard can error. -/
def JWTManager.generateTokenPair (j : JWTManager)
    (userID organizationID roleID email : String) (now : Int) :
    Except GoErr TokenPair :=
  if userID = "" then .error (.msg "user_id is required")
  else
    .ok { accessToken := .jwt (j.generateAccessToken userID organizationID roleID email now),
          refreshToken := .jwt (j.generateRefreshToken userID organizationID roleID email now),
          expiresIn := j.accessTokenExpiry,
          tokenType := "Bearer" }

/-- Failure stages of `jwt.ParseWithClaims` (jwt/v5): malformed input,
keyfunc rejection, signature mismatch, expired claims, other invalid claims
(`iat`/`nbf` in the future). -/
inductive JwtParseErr where
  | malformed | keyfuncRejected | badSignature | expired | claimsInvalid
deriving DecidableEq

/-- Model of `jwt.ParseWithClaims` with the `JWTManager` keyfunc: decode,
reject any non-HMAC method in the keyfunc, verify the signature with the header
method and the configured secret, then validate `exp` (valid iff
`now < exp`, strict), `iat` and `nbf` (jwt/v5 validator order). -/
def jwtParse (secret : String) (ts : TokenString) (now : Int) :
    Except JwtParseErr JwtToken :=
  match ts with
  | .raw _ => .error .malformed
  | .jwt t =>
    if !t.alg.isHMAC then .error .keyfuncRejected
    else if t.sig != JwtSignature.mac t.alg secret t.claims then .error .badSignature
    else if !(now < t.claims.expiresAt) then .error .expired
    else if now < t.claims.issuedAt then .error .claimsInvalid
    else if now < t.claims.notBefore then .error .claimsInvalid
    else .ok t

/-- Model of `JWTManager.ValidateToken`: empty string and every parse failure map to
`ErrInvalidToken`, except failures satisfying `jwt.ErrTokenExpired`, which
map to `ErrTokenExpired`. -/
def JWTManager.validateToken (j : JWTManager) (ts : TokenString) (now : Int) :
    Except GoErr JwtClaims :=
  if ts = .raw "" then .error .invalidToken
  else
    match jwtParse j.secret ts now with
    | .error .expired => .error .tokenExpired
    | .error _ => .error .invalidToken
    | .ok t => .ok t.claims

/-- Idealized bcrypt digest: a collision-free one-way tag of the password
(salt and cost are irrelevant to the properties proved here; what matters
is that `CompareHashAndPassword` succeeds exactly on a hash generated from
the same password). -/
def bcryptHash (password : String) : String :=
  "[bcrypt]" ++ password

/-- Model of `bcrypt.GenerateFromPassword` (golang.org/x/crypto since
v0.3.0): fails with `ErrPasswordTooLong` when the password exceeds 72
bytes, otherwise produces the digest. -/
def bcryptGenerateFromPassword (password : String) : Except GoErr String :=
  if password.utf8ByteSize > 72 then .error .passwordTooLong
  else .ok (bcryptHash password)

/-- Model of `PasswordHandler.Hash`: the length guard (Go `len(password)`
counts UTF-8 bytes), then `bcrypt.GenerateFromPassword`, whose error is
returned as-is when it fails. -/
def PasswordHandler.hash (password : String) : Except GoErr String :=
  if password.utf8ByteSize < 8 then .error .passwordTooShort
  else
    match bcryptGenerateFromPassword password with
    | .error e => .error e
    | .ok bytes => .ok bytes

/-- Model of `PasswordHandler.Verify`: `bcrypt.CompareHashAndPassword` succeeds iff
the hash was generated from this password; any failure (including a
malformed hash) yields `false`. -/
def PasswordHandler.verify (password hash : String) : Bool :=
  hash == bcryptHash password

/-- Model of `domain.UserStatus`. -/
inductive UserStatus where
  | active | inactive | suspended | deleted
deriving DecidableEq

/-- Model of `domain.User` (the `db`-mapped columns; `*string` fields are options). -/
structure User where
  id : String
  organizationID : String
  roleID : String
  name : String
  username : String
  employeeID : Option String
  position : Option String
  email : String
  passwordHash : String
  address : Option String
  phone : Option String
  thumbnail : Option String
  status : UserStatus
  createdAt : Int
  updatedAt : Int
deriving DecidableEq

/-- Model of `User.IsActive`. -/
def User.isActive (u : User) : Bool :=
  u.status == UserStatus.active

/-- Model of `domain.UserInfo`. -/
structure UserInfo where
  id : String
  organizationID : String
  roleID : String
  name : String
  username : String
  email : String
  thumbnail : String
deriving DecidableEq

/-- Model of `User.ToUserInfo` (thumbnail dereferenced when present, else zero value). -/
def User.toUserInfo (u : User) : UserInfo :=
  { id := u.id, organizationID := u.organizationID, roleID := u.roleID,
    name := u.name, username := u.username, email := u.email,
    thumbnail := u.thumbnail.getD "" }

/-- Model of `domain.Token`: a session row of the `tokens` table. The token columns
hold the serialized strings, compared structurally (see module comment). -/
structure Token where
  id : String
  userID : String
  accessToken : TokenString
  refreshToken : TokenString
  expiresAt : Int
  revoked : Bool
  createdAt : Int
deriving DecidableEq

/-- Model of `Token.IsExpired`: `time.Now().After(t.ExpiresAt)` is strict. -/
def Token.isExpired (t : Token) (now : Int) : Bool :=
  now > t.expiresAt

/-- Model of `Token.IsValid`. -/
def Token.isValid (t : Token) (now : Int) : Bool :=
  !t.revoked && !(t.isExpired now)

/-- The Postgres state seen by the auth repositories: the `users` and
`tokens` tables as lists of rows (insertion order preserved). -/
structure DB where
  users : List User
  tokens : List Token
deriving DecidableEq

/-- Row selected by `ORDER BY created_at DESC LIMIT 1`: the match with the
greatest `created_at` (Postgres leaves ties unordered; this model keeps the
earliest-inserted of tied rows). -/
def pickLatest : List Token → Option Token
  | [] => none
  | t :: ts =>
    match pickLatest ts with
    | none => some t
    | some u => if u.createdAt > t.createdAt then some u else some t

/-- Model of `userPostgresRepository.handleError`: wraps the raw database error with
context. Note that unlike the `handleError` of every other repository in
this codebase it does not special-case `sql.ErrNoRows`; the wrapped chain
never contains `errors.ErrNotFound`. -/
def userRepoHandleError (e : GoErr) : GoErr :=
  .wrapped "database error" e

/-- Model of `userPostgresRepository.GetUserByEmail`:
the query `SELECT ... FROM users WHERE email and status not deleted` through
`sqlx.Get`, which scans the first result row or fails `sql.ErrNoRows`. -/
def userRepoGetUserByEmail (db : DB) (email : String) : Except GoErr User :=
  match db.users.find? (fun u => u.email == email && u.status != UserStatus.deleted) with
  | some u => .ok u
  | none => .error (userRepoHandleError .sqlNoRows)

/-- Model of `userPostgresRepository.GetUserByID`:
the query `SELECT ... FROM users WHERE id and status not deleted`. -/
def userRepoGetUserByID (db : DB) (id : String) : Except GoErr User :=
  match db.users.find? (fun u => u.id == id && u.status != UserStatus.deleted) with
  | some u => .ok u
  | none => .error (userRepoHandleError .sqlNoRows)

/-- Model of `tokenPostgresRepository.handleError`: same contextual wrap, again with
no `sql.ErrNoRows` mapping. -/
def tokenRepoHandleError (e : GoErr) : GoErr :=
  .wrapped "database error" e

/-- Model of `tokenPostgresRepository.CreateToken`: `INSERT INTO tokens ...`.
The modelled storage failure is the real one for this statement: a
unique-violation on the row key `id` (the column every other statement uses
to address a single row); on success the row is appended. -/
def tokenRepoCreateToken (db : DB) (tok : Token) : Except GoErr DB :=
  if db.tokens.any (fun t => t.id == tok.id) then
    .error (.wrapped "failed to create token" .dupKey)
  else
    .ok { db with tokens := db.tokens ++ [tok] }

/-- Model of `tokenPostgresRepository.GetTokenByRefreshToken`:
`SELECT ... FROM tokens WHERE refresh_token = $1 ORDER BY created_at DESC LIMIT 1`. -/
def tokenRepoGetByRefreshToken (db : DB) (rt : TokenString) : Except GoErr Token :=
  match pickLatest (db.tokens.filter (fun t => t.refreshToken == rt)) with
  | some t => .ok t
  | none => .error (tokenRepoHandleError .sqlNoRows)

/-- Model of `tokenPostgresRepository.GetTokenByAccessToken`:
`SELECT ... FROM tokens WHERE access_token = $1 ORDER BY created_at DESC LIMIT 1`. -/
def tokenRepoGetByAccessToken (db : DB) (at_ : TokenString) : Except GoErr Token :=
  match pickLatest (db.tokens.filter (fun t => t.accessToken == at_)) with
  | some t => .ok t
  | none => .error (tokenRepoHandleError .sqlNoRows)

/-- Model of `tokenPostgresRepository.RevokeToken`:
`UPDATE tokens SET revoked = true WHERE id = $1`, then `ErrNotFound` when
no row was affected. -/
def tokenRepoRevokeToken (db : DB) (id : String) : Except GoErr DB :=
  if db.tokens.any (fun t => t.id == id) then
    .ok { db with tokens := db.tokens.map (fun t => if t.id == id then { t with revoked := true } else t) }
  else
    .error .notFound

/-- Model of `tokenPostgresRepository.RevokeUserTokens`:
`UPDATE tokens SET revoked = true WHERE user_id = $1`; the affected row
count is never inspected, so zero matches is still a success. -/
def tokenRepoRevokeUserTokens (db : DB) (userID : String) : Except GoErr DB :=
  .ok { db with tokens := db.tokens.map (fun t => if t.userID == userID then { t with revoked := true } else t) }

/-- Model of `domain.TokenClaims` (the usecase `ValidateToken` fills only the four
fields it copies; `Name`/`Username` keep their zero values). -/
structure TokenClaims where
  userID : String
  organizationID : String
  roleID : String
  name : String
  username : String
  email : String
deriving DecidableEq

/-- Model of `domain.AuthResponse`. -/
structure AuthResponse where
  user : UserInfo
  accessToken : TokenString
  refreshToken : TokenString
  expiresIn : Int
  tokenType : String
deriving DecidableEq

/-- The session-row literal built identically in `Login`, `Register` and
`RefreshToken`: a fresh UUID, the two token strings of the pair, and a
hard-coded `time.Now().Add(24 * time.Hour * 7)` expiry. -/
def newSessionRow (userID : String) (accessToken refreshToken : TokenString)
    (now : Int) (newID : String) : Token :=
  { id := newID, userID := userID, accessToken := accessToken,
    refreshToken := refreshToken, expiresAt := now + 24 * 3600 * 7,
    revoked := false, createdAt := now }

/-- Model of `authUsecase.Login`. `newID` is the `uuid.New()` draw for the session
row; the returned `DB` is the store state after the call. -/
def authLogin (j : JWTManager) (db : DB) (email password : String)
    (now : Int) (newID : String) : Except GoErr AuthResponse × DB :=
  match userRepoGetUserByEmail db email with
  | .error e =>
    if e.is .notFound then (.error .invalidCredentials, db)
    else (.error (.wrapped "failed to get user" e), db)
  | .ok user =>
    if !PasswordHandler.verify password user.passwordHash then
      (.error .invalidCredentials, db)
    else if !user.isActive then
      (.error .userDisabled, db)
    else
      match j.generateTokenPair user.id user.organizationID user.roleID user.email now with
      | .error e => (.error (.wrapped "failed to generate tokens" e), db)
      | .ok pair =>
        match tokenRepoCreateToken db (newSessionRow user.id pair.accessToken pair.refreshToken now newID) with
        | .error e => (.error (.wrapped "failed to store token" e), db)
        | .ok db1 =>
          (.ok { user := user.toUserInfo, accessToken := pair.accessToken,
                 refreshToken := pair.refreshToken, expiresIn := pair.expiresIn,
                 tokenType := pair.tokenType }, db1)

/-- Model of `authUsecase.Logout`. -/
def authLogout (db : DB) (accessToken refreshToken : TokenString) :
    Except GoErr Unit × DB :=
  match tokenRepoGetByRefreshToken db refreshToken with
  | .error e =>
    if e.is .notFound then (.error .invalidToken, db)
    else (.error (.wrapped "failed to get token" e), db)
  | .ok tok =>
    if tok.accessToken != accessToken then (.error .invalidToken, db)
    else
      match tokenRepoRevokeToken db tok.id with
      | .error e => (.error (.wrapped "failed to revoke token" e), db)
      | .ok db1 => (.ok (), db1)

/-- Model of `authUsecase.RefreshToken`: look up the session by refresh token, check
`IsValid`, load the user, mint a new pair, revoke the old session, persist
the new one. There is no surrounding transaction: a failure of the final
insert leaves the revocation in place. -/
def authRefreshToken (j : JWTManager) (db : DB) (refreshToken : TokenString)
    (now : Int) (newID : String) : Except GoErr AuthResponse × DB :=
  match tokenRepoGetByRefreshToken db refreshToken with
  | .error e =>
    if e.is .notFound then (.error .invalidToken, db)
    else (.error (.wrapped "failed to get token" e), db)
  | .ok storedToken =>
    if !storedToken.isValid now then (.error .tokenExpired, db)
    else
      match userRepoGetUserByID db storedToken.userID with
      | .error e => (.error (.wrapped "failed to get user" e), db)
      | .ok user =>
        match j.generateTokenPair user.id user.organizationID user.roleID user.email now with
        | .error e => (.error (.wrapped "failed to generate new tokens" e), db)
        | .ok pair =>
          match tokenRepoRevokeToken db storedToken.id with
          | .error e => (.error (.wrapped "failed to revoke old token" e), db)
          | .ok db1 =>
            match tokenRepoCreateToken db1 (newSessionRow user.id pair.accessToken pair.refreshToken now newID) with
            | .error e => (.error (.wrapped "failed to store new token" e), db1)
            | .ok db2 =>
              (.ok { user := user.toUserInfo, accessToken := pair.accessToken,
                     refreshToken := pair.refreshToken, expiresIn := pair.expiresIn,
                     tokenType := pair.tokenType }, db2)

/-- Model of `authUsecase.RevokeAllTokens`. -/
def authRevokeAllTokens (db : DB) (userID : String) : Except GoErr Unit × DB :=
  match tokenRepoRevokeUserTokens db userID with
  | .error e => (.error (.wrapped "failed to revoke user tokens" e), db)
  | .ok db1 => (.ok (), db1)

/-- Model of `authUsecase.ValidateToken`: cryptographic validation first, then the
store lookup. An error from the lookup is fatal unless it satisfies
`errors.Is(err, ErrNotFound)`, in which case `storedToken` stays `nil` and
the claims are returned on signature validity alone; a found row that is
not `IsValid` fails `ErrTokenRevoked`. -/
def authValidateToken (j : JWTManager) (db : DB) (tokenStr : TokenString)
    (now : Int) : Except GoErr TokenClaims :=
  match j.validateToken tokenStr now with
  | .error e => .error e
  | .ok claims =>
    let answer : TokenClaims :=
      { userID := claims.userID, organizationID := claims.organizationID,
        roleID := claims.roleID, name := "", username := "", email := claims.email }
    match tokenRepoGetByAccessToken db tokenStr with
    | .error e =>
      if !(e.is .notFound) then .error (.wrapped "failed to get stored token" e)
      else .ok answer
    | .ok storedToken =>
      if !storedToken.isValid now then .error .tokenRevoked
      else .ok answer

/-! ### Helper lemmas about the row-selection and row-update primitives -/

theorem pickLatest_mem : ∀ {l : List Token} {t : Token}, pickLatest l = some t → t ∈ l := by
  intro l
  induction l with
  | nil => intro t h; simp [pickLatest] at h
  | cons a l ih =>
    intro t h
    rw [pickLatest] at h
    cases hp : pickLatest l with
    | none =>
      rw [hp] at h
      simp only [Option.some.injEq] at h
      simp [h]
    | some u =>
      rw [hp] at h
      by_cases hgt : u.createdAt > a.createdAt
      · simp only [if_pos hgt, Option.some.injEq] at h
        exact List.mem_cons_of_mem a (h ▸ ih hp)
      · simp only [if_neg hgt, Option.some.injEq] at h
        simp [h]

theorem pickLatest_map (f : Token → Token) (hc : ∀ t, (f t).createdAt = t.createdAt) :
    ∀ l : List Token, pickLatest (l.map f) = (pickLatest l).map f := by
  intro l
  induction l with
  | nil => rfl
  | cons a l ih =>
    rw [List.map_cons, pickLatest, pickLatest, ih]
    cases hp : pickLatest l with
    | none => rfl
    | some u =>
      by_cases hgt : u.createdAt > a.createdAt <;>
        simp [Option.map_some, hc, hgt]

/-- The row-revoking UPDATE commutes with the refresh-token WHERE filter:
revoking rows by id neither adds nor removes matches of a refresh-token
lookup. -/
theorem filter_refresh_map_revoke (id0 : String) (rt : TokenString) :
    ∀ l : List Token,
      (l.map (fun t => if t.id == id0 then { t with revoked := true } else t)).filter
          (fun t => t.refreshToken == rt)
        = (l.filter (fun t => t.refreshToken == rt)).map
            (fun t => if t.id == id0 then { t with revoked := true } else t) := by
  intro l
  induction l with
  | nil => rfl
  | cons a l ih =>
    rw [List.map_cons]
    cases hrt : (a.refreshToken == rt) with
    | true =>
      have hrt2 : ((if a.id == id0 then { a with revoked := true } else a).refreshToken == rt) = true := by
        split <;> exact hrt
      simp only [List.filter, hrt, hrt2, List.map_cons, ih]
    | false =>
      have hrt2 : ((if a.id == id0 then { a with revoked := true } else a).refreshToken == rt) = false := by
        split <;> exact hrt
      simp only [List.filter, hrt, hrt2, ih]

/-- Under distinct keys, exactly one row matches the key of a present row. -/
theorem filter_key_singleton (f : Token → String) :
    ∀ (l : List Token) (x : Token), (l.map f).Nodup → x ∈ l →
      (l.filter (fun t => f t == f x)).length = 1 := by
  intro l
  induction l with
  | nil => intro x _ hx; simp at hx
  | cons a l ih =>
    intro x hnd hx
    rw [List.map_cons, List.nodup_cons] at hnd
    rcases List.mem_cons.mp hx with hxa | hxl
    · subst hxa
      have hnone : ∀ t ∈ l, (f t == f x) = false := by
        intro t ht
        by_contra hne
        rw [Bool.not_eq_false, beq_iff_eq] at hne
        exact hnd.1 (hne ▸ List.mem_map_of_mem f ht)
      rw [List.filter_cons_of_pos (by simp), List.length_cons,
        List.filter_eq_nil_iff.mpr (by intro t ht; simp [hnone t ht]), List.length_nil]
    · have hne : (f a == f x) = false := by
        by_contra hcon
        rw [Bool.not_eq_false, beq_iff_eq] at hcon
        exact hnd.1 (hcon ▸ List.mem_map_of_mem f hxl)
      rw [List.filter_cons_of_neg (by simp [hne])]
      exact ih x hnd.2 hxl

/-! ### Concrete fixtures used by witnesses and counterexamples -/

/-- A manager with a 15-minute access expiry and 7-day refresh expiry
(the configured defaults), in seconds. -/
def jwtW : JWTManager :=
  { secret := "secret", accessTokenExpiry := 900,
    refreshTokenExpiry := 604800, issuer := "portal" }

/-- An active user row whose password is `password123`. -/
def userA : User :=
  { id := "u1", organizationID := "o1", roleID := "r1", name := "A",
    username := "a", employeeID := none, position := none,
    email := "a@x.com", passwordHash := bcryptHash "password123",
    address := none, phone := none, thumbnail := none,
    status := .active, createdAt := 0, updatedAt := 0 }

/-- Claims as minted for `userA` at time 0 by the access half of `jwtW`. -/
def claimsW : JwtClaims :=
  { userID := "u1", organizationID := "o1", roleID := "r1",
    email := "a@x.com", issuer := "portal", subject := "u1",
    expiresAt := 900, issuedAt := 0, notBefore := 0 }

/-- A correctly HS256-signed access token for `claimsW`. -/
def tokW : TokenString :=
  .jwt { alg := .HS256, claims := claimsW, sig := .mac .HS256 "secret" claimsW }

/-- The same claims signed (with the right secret) under HS384. -/
def jwtTok384 : JwtToken :=
  { alg := .HS384, claims := claimsW, sig := .mac .HS384 "secret" claimsW }

/-- Model of `jwtTok384` serialized. -/
def tokW384 : TokenString := .jwt jwtTok384

/-- The same claims carried by an unsigned "none" token. -/
def tokWNone : TokenString :=
  .jwt { alg := .noAlg, claims := claimsW, sig := .garbage "" }

/-- A store with no session rows. -/
def dbEmpty : DB := { users := [userA], tokens := [] }

/-- A 73-byte password (73 ASCII characters), over the bcrypt 72-byte
input limit. -/
def longPw : String := String.mk (List.replicate 73 'a')

/-- A session row for `userA` holding `tokW`, already revoked. -/
def rowRevoked : Token :=
  { id := "s0", userID := "u1", accessToken := tokW,
    refreshToken := .raw "rt0", expiresAt := 604800, revoked := true,
    createdAt := 0 }

/-- A store whose only row for `tokW` is revoked. -/
def dbRevoked : DB := { users := [userA], tokens := [rowRevoked] }

/-! ### Claim theorems -/

/-- C1: part (a) of the claim fails on the code. `tokW` passes the Token
Issuer cryptographic validation and the store holds no row whose access
token equals it, yet the Orchestrator `ValidateToken` does not return the
claims: the store lookup surfaces `sql.ErrNoRows` wrapped only as
"database error", which does not satisfy `errors.Is(err, ErrNotFound)`, so
the defensive branch is dead and a generic internal error is returned.
Part (b) does hold: with a revoked row present the result is
`ErrTokenRevoked`. -/
theorem validateToken_store_miss_is_internal_error :
    jwtW.validateToken tokW 10 = .ok claimsW ∧
    dbEmpty.tokens.filter (fun t => t.accessToken == tokW) = [] ∧
    tokenRepoGetByAccessToken dbEmpty tokW
      = .error (.wrapped "database error" .sqlNoRows) ∧
    (GoErr.wrapped "database error" .sqlNoRows).is .notFound = false ∧
    authValidateToken jwtW dbEmpty tokW 10
      = .error (.wrapped "failed to get stored token"
          (.wrapped "database error" .sqlNoRows)) ∧
    authValidateToken jwtW dbRevoked tokW 10 = .error .tokenRevoked := by
  refine ⟨rfl, rfl, rfl, rfl, rfl, rfl⟩

/-- C3: the claim fails on the code. With a wrong password Login yields
`ErrInvalidCredentials`, but with a non-existent email the repository
wrapped `sql.ErrNoRows` does not satisfy `errors.Is(err, ErrNotFound)`, so
Login surfaces a distinguishable wrapped database error instead. -/
theorem login_enumeration_signal :
    (authLogin jwtW dbEmpty "a@x.com" "wrongpass" 0 "s1").1
      = .error .invalidCredentials ∧
    (authLogin jwtW dbEmpty "b@x.com" "password123" 0 "s1").1
      = .error (.wrapped "failed to get user" (.wrapped "database error" .sqlNoRows)) ∧
    GoErr.wrapped "failed to get user" (.wrapped "database error" .sqlNoRows)
      ≠ .invalidCredentials := by
  refine ⟨rfl, rfl, by decide⟩

/-- C4: the claim fails on the code. On a store with no matching row both
getters fail with `errors.Wrap(sql.ErrNoRows, "database error")`, and that
chain does not satisfy `errors.Is(err, ErrNotFound)` — unlike the mock
TokenRepository of the package own tests, which returns `ErrNotFound`. -/
theorem token_getters_miss_not_ErrNotFound :
    tokenRepoGetByRefreshToken dbEmpty (.raw "absent")
      = .error (.wrapped "database error" .sqlNoRows) ∧
    tokenRepoGetByAccessToken dbEmpty (.raw "absent")
      = .error (.wrapped "database error" .sqlNoRows) ∧
    (GoErr.wrapped "database error" .sqlNoRows).is .notFound = false := by
  refine ⟨rfl, rfl, rfl⟩

/-- C5 counterexample: a token declaring HS384 — an algorithm other than
the pinned HS256 used to mint tokens — passes `ValidateToken` when its MAC
was computed with the configured secret, because the keyfunc only checks
membership in the HMAC family. -/
theorem hs384_token_accepted :
    tokW384 = .jwt jwtTok384 ∧
    jwtTok384.alg ≠ JwtAlg.HS256 ∧
    jwtW.validateToken tokW384 10 = .ok claimsW := by
  exact ⟨rfl, by decide, rfl⟩

/-- C7 counterexample: at the expiry instant itself (`now = expiresAt`) a
non-revoked session still satisfies `IsValid`, because `IsExpired` uses the
strict `time.Now().After`; the claimed `now < expiry` condition is false
there. -/
theorem isValid_at_expiry_instant :
    Token.isValid { rowRevoked with revoked := false, expiresAt := 5 } 5 = true ∧
    ¬ (5 < ({ rowRevoked with revoked := false, expiresAt := 5 } : Token).expiresAt) := by
  exact ⟨rfl, by decide⟩

/-- C9 counterexample: the claim fails at both ends. `len(password)` counts
UTF-8 bytes, not characters, so a four-character password of two-byte
characters is accepted by `Hash` although its length is below 8
characters; and a 73-character ASCII password of length well above 8 is
rejected, because `bcrypt.GenerateFromPassword` fails with
`ErrPasswordTooLong` beyond 72 bytes and `Hash` propagates that error. -/
theorem hash_guard_byte_counterexamples :
    String.length "éééé" < 8 ∧
    PasswordHandler.hash "éééé" = .ok (bcryptHash "éééé") ∧
    8 ≤ String.length longPw ∧
    PasswordHandler.hash longPw = .error .passwordTooLong := by
  exact ⟨by decide, rfl, by decide, rfl⟩

/-- C5 (amended): `ValidateToken` rejects, with `ErrInvalidToken` and
without ever returning claims, every token whose header declares an
algorithm outside the HMAC family — including the "none" algorithm — the
pinned check being the HMAC family rather than HS256 alone. -/
theorem validateToken_rejects_non_hmac (j : JWTManager) (t : JwtToken)
    (now : Int) (h : t.alg.isHMAC = false) :
    j.validateToken (.jwt t) now = .error .invalidToken := by
  simp [JWTManager.validateToken, jwtParse, h]

/-- Witness for the C5 amended theorem at the "none"-algorithm token. -/
theorem validateToken_rejects_non_hmac_witness :
    (JwtAlg.noAlg.isHMAC = false) ∧
    jwtW.validateToken tokWNone 10 = .error .invalidToken := by
  exact ⟨rfl, validateToken_rejects_non_hmac jwtW _ 10 rfl⟩

/-- C7 (amended): `IsExpired` and `IsValid` are pure predicates of the
session row and the current instant, and a session is valid exactly when it
is not revoked and the current instant is at most the expiry (`IsExpired`
uses the strict `time.Now().After`, so the expiry instant itself still
validates). -/
theorem isValid_iff (t : Token) (now : Int) :
    (t.isExpired now = true ↔ t.expiresAt < now) ∧
    (t.isValid now = true ↔ (t.revoked = false ∧ now ≤ t.expiresAt)) := by
  constructor
  · simp [Token.isExpired]
  · simp [Token.isValid, Token.isExpired]

/-- C9 (amended): `Hash` fails with `ErrPasswordTooShort` when the password
UTF-8 byte length (Go `len`) is below 8; for byte lengths from 8 up to the
bcrypt input limit of 72 it returns the hash without error; beyond 72
bytes it fails with the `ErrPasswordTooLong` error of
`bcrypt.GenerateFromPassword`. -/
theorem hash_length_guard (password : String) :
    (password.utf8ByteSize < 8 →
      PasswordHandler.hash password = .error .passwordTooShort) ∧
    (8 ≤ password.utf8ByteSize → password.utf8ByteSize ≤ 72 →
      PasswordHandler.hash password = .ok (bcryptHash password)) ∧
    (72 < password.utf8ByteSize →
      PasswordHandler.hash password = .error .passwordTooLong) := by
  refine ⟨?_, ?_, ?_⟩
  · intro h
    simp [PasswordHandler.hash, h]
  · intro h8 h72
    simp [PasswordHandler.hash, bcryptGenerateFromPassword,
      Nat.not_lt.mpr h8, Nat.not_lt.mpr h72]
  · intro h72
    have h8 : ¬ password.utf8ByteSize < 8 := by omega
    simp [PasswordHandler.hash, bcryptGenerateFromPassword, h8, h72]

/-- Witness for the C9 amended theorem at three concrete passwords. -/
theorem hash_length_guard_witness :
    ("short".utf8ByteSize < 8 ∧
      PasswordHandler.hash "short" = .error .passwordTooShort) ∧
    (8 ≤ "password123".utf8ByteSize ∧ "password123".utf8ByteSize ≤ 72 ∧
      PasswordHandler.hash "password123" = .ok (bcryptHash "password123")) ∧
    (72 < longPw.utf8ByteSize ∧
      PasswordHandler.hash longPw = .error .passwordTooLong) := by
  refine ⟨⟨by decide, (hash_length_guard "short").1 (by decide)⟩,
    ⟨by decide, by decide, (hash_length_guard "password123").2.1 (by decide) (by decide)⟩,
    ⟨by decide, (hash_length_guard longPw).2.2 (by decide)⟩⟩

/-- C10: `RevokeAllTokens` succeeds for every identity, in particular one
with zero stored sessions (the UPDATE affected-row count is never
inspected), whereas `RevokeToken` fails with `ErrNotFound` whenever no row
carries the given ID. -/
theorem revokeAll_total_revokeOne_notFound (db : DB) (userID id : String)
    (h : ∀ t ∈ db.tokens, t.id ≠ id) :
    (authRevokeAllTokens db userID).1 = .ok () ∧
    tokenRepoRevokeToken db id = .error .notFound := by
  constructor
  · rfl
  · have hany : db.tokens.any (fun t => t.id == id) = false := by
      simp only [List.any_eq_false]
      intro t ht
      simpa using h t ht
    simp [tokenRepoRevokeToken, hany]

/-- Witness for C10 on a store with no sessions at all. -/
theorem revokeAll_total_revokeOne_notFound_witness :
    (∀ t ∈ dbEmpty.tokens, t.id ≠ "s9") ∧
    ((authRevokeAllTokens dbEmpty "u1").1 = .ok () ∧
      tokenRepoRevokeToken dbEmpty "s9" = .error .notFound) := by
  exact ⟨by decide, revokeAll_total_revokeOne_notFound dbEmpty "u1" "s9" (by decide)⟩

/-- The store after only the revoke step of a refresh: the session row the
refresh-token lookup selects is marked revoked, everything else untouched
(identity when the lookup fails). -/
def refreshRevokedStore (db : DB) (rt : TokenString) : DB :=
  match tokenRepoGetByRefreshToken db rt with
  | .ok old =>
    { db with
      tokens := db.tokens.map (fun t => if t.id == old.id then { t with revoked := true } else t) }
  | .error _ => db

/-- Two live session rows for `userA`; the row id "b" collides with the
UUID drawn for the new session in the C6 counterexample run. -/
def rowA : Token :=
  { id := "a", userID := "u1", accessToken := .raw "atA",
    refreshToken := .raw "rtA", expiresAt := 1000, revoked := false,
    createdAt := 0 }

/-- Second live row (see `rowA`). -/
def rowB : Token :=
  { id := "b", userID := "u1", accessToken := .raw "atB",
    refreshToken := .raw "rtB", expiresAt := 1000, revoked := false,
    createdAt := 0 }

/-- Store for the C6 counterexample. -/
def dbC6 : DB := { users := [userA], tokens := [rowA, rowB] }

/-- Store state after the failing refresh of the C6 counterexample. -/
def dbC6After : DB := (authRefreshToken jwtW dbC6 (.raw "rtA") 1 "b").2

/-- C6 counterexample: a refresh that fails at the final insert (the new
row id collides with an existing row key) leaves the store changed —
the consumed session is already revoked, so the state is not "as it was
before the call". -/
theorem refresh_failure_mutates_store :
    authRefreshToken jwtW dbC6 (.raw "rtA") 1 "b"
      = (.error (.wrapped "failed to store new token"
          (.wrapped "failed to create token" .dupKey)), dbC6After) ∧
    dbC6After ≠ dbC6 := by
  exact ⟨rfl, by decide⟩

/-- C6 (amended): no session row is ever partially written, and a failed
refresh leaves the store either exactly as it was, or — when the failure
strikes after the revoke step — as it was with just the consumed session
marked revoked; the new session is in neither case persisted. -/
theorem refresh_failure_states (j : JWTManager) (db : DB) (rt : TokenString)
    (now : Int) (newID : String) (e : GoErr) (db' : DB)
    (hrun : authRefreshToken j db rt now newID = (.error e, db')) :
    db' = db ∨ db' = refreshRevokedStore db rt := by
  unfold authRefreshToken at hrun
  split at hrun
  · split at hrun <;>
      (rw [Prod.mk.injEq] at hrun; exact Or.inl hrun.2.symm)
  · rename_i storedToken heq
    split at hrun
    · rw [Prod.mk.injEq] at hrun; exact Or.inl hrun.2.symm
    · split at hrun
      · rw [Prod.mk.injEq] at hrun; exact Or.inl hrun.2.symm
      · rename_i user huser
        split at hrun
        · rw [Prod.mk.injEq] at hrun; exact Or.inl hrun.2.symm
        · rename_i pair hpair
          split at hrun
          · rw [Prod.mk.injEq] at hrun; exact Or.inl hrun.2.symm
          · rename_i db1 hrev
            split at hrun
            · rw [Prod.mk.injEq] at hrun
              right
              rw [← hrun.2]
              unfold tokenRepoRevokeToken at hrev
              split at hrev
              · injection hrev with h1
                simp only [refreshRevokedStore, heq]
                exact h1.symm
              · exact absurd hrev (by simp)
            · rw [Prod.mk.injEq] at hrun
              exact absurd hrun.1 (by simp)

/-- Witness for the C6 amended theorem at the counterexample run. -/
theorem refresh_failure_states_witness :
    authRefreshToken jwtW dbC6 (.raw "rtA") 1 "b"
      = (.error (.wrapped "failed to store new token"
          (.wrapped "failed to create token" .dupKey)), dbC6After) ∧
    (dbC6After = dbC6 ∨ dbC6After = refreshRevokedStore dbC6 (.raw "rtA")) := by
  exact ⟨rfl, refresh_failure_states jwtW dbC6 (.raw "rtA") 1 "b" _ dbC6After rfl⟩

/-- C8: a successful `Logout(accessToken, refreshToken)` revokes exactly
the one session row the refresh-token lookup selected — whose stored access
token necessarily equals the supplied one — and leaves every other stored
session untouched (in particular other concurrently active sessions of the
same identity, whose rows, hence whose validity, are unchanged). Key
distinctness of the `tokens` table is assumed (`id` is the row key). -/
theorem logout_revokes_only_target (db : DB) (atk rtk : TokenString)
    (w : Token) (db' : DB)
    (hids : (db.tokens.map Token.id).Nodup)
    (hw : tokenRepoGetByRefreshToken db rtk = .ok w)
    (hrun : authLogout db atk rtk = (.ok (), db')) :
    w.accessToken = atk ∧
    db'.tokens = db.tokens.map (fun t => if t.id == w.id then { t with revoked := true } else t) ∧
    { w with revoked := true } ∈ db'.tokens ∧
    (db.tokens.filter (fun t => t.id == w.id)).length = 1 ∧
    (∀ t ∈ db.tokens, t.id ≠ w.id → t ∈ db'.tokens) := by
  have hwmem : w ∈ db.tokens := by
    unfold tokenRepoGetByRefreshToken at hw
    split at hw
    · rename_i t heq
      injection hw with h
      exact h ▸ List.mem_of_mem_filter (pickLatest_mem heq)
    · exact absurd hw (by simp)
  unfold authLogout at hrun
  split at hrun
  · rename_i e heq
    rw [hw] at heq
    exact absurd heq (by simp)
  · rename_i tok heq
    rw [hw] at heq
    injection heq with h
    subst h
    split at hrun
    · rw [Prod.mk.injEq] at hrun
      exact absurd hrun.1 (by simp)
    · rename_i hacc
      have hacc2 : w.accessToken = atk := by
        simpa using hacc
      split at hrun
      · rw [Prod.mk.injEq] at hrun
        exact absurd hrun.1 (by simp)
      · rename_i db1 hrev
        rw [Prod.mk.injEq] at hrun
        have hdb : db' = db1 := hrun.2.symm
        unfold tokenRepoRevokeToken at hrev
        split at hrev
        · injection hrev with h1
          refine ⟨hacc2, ?_, ?_, ?_, ?_⟩
          · rw [hdb, ← h1]
          · rw [hdb, ← h1]
            exact List.mem_map.mpr ⟨w, hwmem, by simp⟩
          · exact filter_key_singleton Token.id db.tokens w hids hwmem
          · intro t ht hne
            rw [hdb, ← h1]
            exact List.mem_map.mpr ⟨t, ht, by simp [hne]⟩
        · exact absurd hrev (by simp)

/-- Witness for C8 on a two-session store: logging out the first session
leaves the second present and unrevoked. -/
theorem logout_revokes_only_target_witness :
    (dbC6.tokens.map Token.id).Nodup ∧
    tokenRepoGetByRefreshToken dbC6 (.raw "rtA") = .ok rowA ∧
    authLogout dbC6 (.raw "atA") (.raw "rtA")
      = (.ok (), (authLogout dbC6 (.raw "atA") (.raw "rtA")).2) ∧
    (rowA.accessToken = .raw "atA" ∧
      (authLogout dbC6 (.raw "atA") (.raw "rtA")).2.tokens
        = dbC6.tokens.map (fun t => if t.id == rowA.id then { t with revoked := true } else t) ∧
      { rowA with revoked := true } ∈ (authLogout dbC6 (.raw "atA") (.raw "rtA")).2.tokens ∧
      (dbC6.tokens.filter (fun t => t.id == rowA.id)).length = 1 ∧
      (∀ t ∈ dbC6.tokens, t.id ≠ rowA.id →
        t ∈ (authLogout dbC6 (.raw "atA") (.raw "rtA")).2.tokens)) := by
  exact ⟨by decide, rfl, rfl,
    logout_revokes_only_target dbC6 (.raw "atA") (.raw "rtA") rowA _
      (by decide) rfl rfl⟩

/-- C2: for every session consumed by a successful Refresh, the session is
revoked strictly before the new session is persisted (the final store is
obtained by inserting the new row into the already-revoked intermediate
store, in which the new row is not yet present), and a later Refresh
presenting the same — now stale — refresh token against the resulting
store fails with `ErrTokenExpired`/`ErrTokenRevoked`/`ErrInvalidToken` and
never succeeds. The rotated pair is assumed to carry a refresh token
distinct from the consumed one (token strings embed their issuance data,
so a mint at a different instant cannot reproduce the old string). -/
theorem refresh_single_use
    (j : JWTManager) (db : DB) (rt : TokenString) (now : Int) (newID : String)
    (now2 : Int) (newID2 : String) (resp : AuthResponse) (db' : DB)
    (old : Token) (dbMid : DB)
    (hold : tokenRepoGetByRefreshToken db rt = .ok old)
    (hrev : tokenRepoRevokeToken db old.id = .ok dbMid)
    (hrun : authRefreshToken j db rt now newID = (.ok resp, db'))
    (hrot : resp.refreshToken ≠ rt) :
    tokenRepoCreateToken dbMid (newSessionRow old.userID resp.accessToken resp.refreshToken now newID) = .ok db' ∧
    { old with revoked := true } ∈ dbMid.tokens ∧
    newSessionRow old.userID resp.accessToken resp.refreshToken now newID ∉ dbMid.tokens ∧
    { old with revoked := true } ∈ db'.tokens ∧
    ((authRefreshToken j db' rt now2 newID2).1 = .error .tokenExpired ∨
     (authRefreshToken j db' rt now2 newID2).1 = .error .tokenRevoked ∨
     (authRefreshToken j db' rt now2 newID2).1 = .error .invalidToken) := by
  have holdpick : pickLatest (db.tokens.filter (fun t => t.refreshToken == rt)) = some old := by
    have hold2 := hold
    unfold tokenRepoGetByRefreshToken at hold2
    split at hold2
    · rename_i t heqp
      injection hold2 with h
      exact h ▸ heqp
    · exact absurd hold2 (by simp)
  have holdmem : old ∈ db.tokens := List.mem_of_mem_filter (pickLatest_mem holdpick)
  have hmid : dbMid.tokens
      = db.tokens.map (fun t => if t.id == old.id then { t with revoked := true } else t) := by
    have hrev2 := hrev
    unfold tokenRepoRevokeToken at hrev2
    split at hrev2
    · injection hrev2 with h
      rw [← h]
    · exact absurd hrev2 (by simp)
  unfold authRefreshToken at hrun
  split at hrun
  · rename_i e heq
    rw [hold] at heq
    exact absurd heq (by simp)
  · rename_i st heq
    rw [hold] at heq
    injection heq with h
    subst h
    split at hrun
    · rw [Prod.mk.injEq] at hrun
      exact absurd hrun.1 (by simp)
    · split at hrun
      · rw [Prod.mk.injEq] at hrun
        exact absurd hrun.1 (by simp)
      · rename_i user huser
        split at hrun
        · rw [Prod.mk.injEq] at hrun
          exact absurd hrun.1 (by simp)
        · rename_i pair hpair
          split at hrun
          · rename_i e hre
            rw [hrev] at hre
            exact absurd hre (by simp)
          · rename_i db1 hre
            rw [hrev] at hre
            injection hre with h
            subst h
            split at hrun
            · rw [Prod.mk.injEq] at hrun
              exact absurd hrun.1 (by simp)
            · rename_i db2 hcreate
              rw [Prod.mk.injEq] at hrun
              have hdb : db2 = db' := hrun.2
              injection hrun.1 with hresp
              subst hresp
              subst hdb
              have huid : user.id = old.userID := by
                have huser2 := huser
                unfold userRepoGetUserByID at huser2
                split at huser2
                · rename_i u hfind
                  injection huser2 with h
                  subst h
                  have hp := List.find?_some hfind
                  rw [Bool.and_eq_true] at hp
                  exact beq_iff_eq.mp hp.1
                · exact absurd huser2 (by simp)
              have hc := hcreate
              rw [huid] at hc
              have hnew : ¬ newSessionRow old.userID pair.accessToken pair.refreshToken now newID ∈ dbMid.tokens := by
                have hcreate2 := hcreate
                unfold tokenRepoCreateToken at hcreate2
                split at hcreate2
                · exact absurd hcreate2 (by simp)
                · rename_i hany
                  intro hmem
                  exact hany (List.any_eq_true.mpr ⟨_, hmem, by simp [newSessionRow]⟩)
              have hmemMid : { old with revoked := true } ∈ dbMid.tokens := by
                rw [hmid]
                exact List.mem_map.mpr ⟨old, holdmem, by simp⟩
              have hdb2tok : db2.tokens
                  = dbMid.tokens ++ [newSessionRow user.id pair.accessToken pair.refreshToken now newID] := by
                have hcreate2 := hcreate
                unfold tokenRepoCreateToken at hcreate2
                split at hcreate2
                · exact absurd hcreate2 (by simp)
                · injection hcreate2 with h
                  rw [← h]
              have hrot2 : (pair.refreshToken == rt) = false :=
                beq_eq_false_iff_ne.mpr hrot
              have hlook2 : tokenRepoGetByRefreshToken db2 rt = .ok { old with revoked := true } := by
                unfold tokenRepoGetByRefreshToken
                rw [hdb2tok, List.filter_append, hmid, filter_refresh_map_revoke]
                have hsingle : (List.filter (fun t => t.refreshToken == rt)
                    [newSessionRow user.id pair.accessToken pair.refreshToken now newID]) = [] := by
                  simp only [List.filter]
                  rw [show ((newSessionRow user.id pair.accessToken pair.refreshToken now newID).refreshToken == rt) = false from hrot2]
                rw [hsingle, List.append_nil,
                  pickLatest_map (fun t => if t.id == old.id then { t with revoked := true } else t)
                    (by intro t; by_cases h : (t.id == old.id) = true <;> simp [h])
                    (db.tokens.filter (fun t => t.refreshToken == rt)),
                  holdpick]
                simp
              refine ⟨hc, hmemMid, ?_, ?_, Or.inl ?_⟩
              · exact hnew
              · rw [hdb2tok]
                exact List.mem_append_left _ hmemMid
              · unfold authRefreshToken
                rw [hlook2]
                rfl

/-- Single-session store consumed by the C2 witness refresh. -/
def dbW2 : DB := { users := [userA], tokens := [rowA] }

/-- Model of `dbW2` after only the revoke step of the witness refresh. -/
def dbMidW2 : DB := { users := [userA], tokens := [{ rowA with revoked := true }] }

/-- Response of the C2 witness refresh. -/
def respW2 : AuthResponse :=
  ((authRefreshToken jwtW dbW2 (.raw "rtA") 1 "n1").1).toOption.getD
    { user := userA.toUserInfo, accessToken := .raw "", refreshToken := .raw "",
      expiresIn := 0, tokenType := "" }

/-- Store after the C2 witness refresh. -/
def dbW2After : DB := (authRefreshToken jwtW dbW2 (.raw "rtA") 1 "n1").2

/-- Witness for C2 at a concrete single-session store. -/
theorem refresh_single_use_witness :
    tokenRepoGetByRefreshToken dbW2 (.raw "rtA") = .ok rowA ∧
    tokenRepoRevokeToken dbW2 rowA.id = .ok dbMidW2 ∧
    authRefreshToken jwtW dbW2 (.raw "rtA") 1 "n1" = (.ok respW2, dbW2After) ∧
    respW2.refreshToken ≠ .raw "rtA" ∧
    (tokenRepoCreateToken dbMidW2 (newSessionRow rowA.userID respW2.accessToken respW2.refreshToken 1 "n1") = .ok dbW2After ∧
     { rowA with revoked := true } ∈ dbMidW2.tokens ∧
     newSessionRow rowA.userID respW2.accessToken respW2.refreshToken 1 "n1" ∉ dbMidW2.tokens ∧
     { rowA with revoked := true } ∈ dbW2After.tokens ∧
     ((authRefreshToken jwtW dbW2After (.raw "rtA") 2 "n2").1 = .error .tokenExpired ∨
      (authRefreshToken jwtW dbW2After (.raw "rtA") 2 "n2").1 = .error .tokenRevoked ∨
      (authRefreshToken jwtW dbW2After (.raw "rtA") 2 "n2").1 = .error .invalidToken)) := by
  exact ⟨rfl, rfl, rfl, by decide,
    refresh_single_use jwtW dbW2 (.raw "rtA") 1 "n1" 2 "n2" respW2 dbW2After rowA dbMidW2
      rfl rfl rfl (by decide)⟩

end PortalAuth
